import Mathlib

/-!
A shallow embedding in Lean 4 of the trace-context engine of the
`caddy-simpletrace` middleware (`simpletrace.go`), together with theorems
checking the natural-language specification against it.

Modelling conventions:

* Go strings are modelled as `List Char` (rune sequences; headers are
  assumed to be valid UTF-8).  Where Go takes the *byte* length of a
  string (`len(s)`), we use `goStrLen`, the sum of the UTF-8 byte sizes
  of the runes.
* The cryptographically random source consumed by `generateTraceID` /
  `generateSpanID` is made explicit: each generator takes an
  `Option (List Nat)` — `some bs` is a successful `rand.Read` filling the
  buffer with the bytes `bs`, `none` is a failing `rand.Read` (the code's
  error branch).  Theorems that need the buffer size carry the hypothesis
  that `bs` has the length the Go code allocates (16 resp. 8 bytes).
* `fmt.Sscanf(flags, "%02x", &b)` is modelled by `sscanf02x`, following
  the `fmt` scanning rules: leading white space (fmt's space table) is
  skipped, a newline in the input is an error since the format holds no
  newline, then a maximal run of at most 2 hex digits is read (at least
  one is required); trailing unconsumed input is not an error.
* `zap` log fields are modelled as `String × LogValue` pairs (name and
  string/bool value).
-/

namespace SimpleTraceSpec

/-- UTF-8 byte size of one rune, as Go's encoding computes it. -/
def charUtf8Len (c : Char) : Nat :=
  if c.toNat ≤ 0x7F then 1
  else if c.toNat ≤ 0x7FF then 2
  else if c.toNat ≤ 0xFFFF then 3
  else 4

/-- Go's `len` on a (valid UTF-8) string: total number of UTF-8 bytes. -/
def goStrLen (s : List Char) : Nat :=
  (s.map charUtf8Len).sum

/-- Lower-case hex digit for a nibble, as used by `hex.EncodeToString`. -/
def hexDigitChar (n : Nat) : Char :=
  if n < 10 then Char.ofNat (48 + n) else Char.ofNat (87 + n)

/-- Go's `hex.EncodeToString`: two lower-case hex digits per byte.
Bytes are `Nat`s; `% 256` keeps the function total on arbitrary `Nat`s. -/
def hexEncode : List Nat → List Char
  | [] => []
  | b :: rest => hexDigitChar (b % 256 / 16) :: hexDigitChar (b % 16) :: hexEncode rest

/-- `generateTraceID` from `simpletrace.go`: reads 16 random bytes and
hex-encodes them; if the random source fails (`none`), falls back to
`fmt.Sprintf("%032x", 0)`, the all-zero 32-char string. -/
def generateTraceID (e : Option (List Nat)) : List Char :=
  match e with
  | some bs => hexEncode bs
  | none => List.replicate 32 '0'

/-- `generateSpanID` from `simpletrace.go`: reads 8 random bytes and
hex-encodes them; if the random source fails (`none`), falls back to
`fmt.Sprintf("%016x", 0)`, the all-zero 16-char string. -/
def generateSpanID (e : Option (List Nat)) : List Char :=
  match e with
  | some bs => hexEncode bs
  | none => List.replicate 16 '0'

/-- The white-space table of Go's `fmt` scanner (`fmt/scan.go`): these
runes are skipped before a verb reads its token. -/
def isGoScanSpace (c : Char) : Bool :=
  (0x09 ≤ c.toNat && c.toNat ≤ 0x0d) || c.toNat == 0x20 || c.toNat == 0x85 ||
    c.toNat == 0xa0 || c.toNat == 0x1680 || (0x2000 ≤ c.toNat && c.toNat ≤ 0x200a) ||
    c.toNat == 0x2028 || c.toNat == 0x2029 || c.toNat == 0x202f ||
    c.toNat == 0x205f || c.toNat == 0x3000

/-- The space-skipping step of `fmt.Sscanf` before a `%x` verb
(`ss.SkipSpace` with `nlIsSpace = false`): spaces are consumed; a newline
(also one right after a carriage return) is the error "unexpected
newline", since the format string `"%02x"` holds no newline. -/
def skipSpaceNoNL : List Char → Option (List Char)
  | [] => some []
  | c :: rest =>
    if c = '\n' then none
    else if c = '\r' then
      match rest with
      | '\n' :: _ => none
      | _ => skipSpaceNoNL rest
    else if isGoScanSpace c then skipSpaceNoNL rest
    else some (c :: rest)

/-- Value of a hex-digit rune under Go's `%x` scanning digit set
(`0123456789aAbBcCdDeEfF`), `none` for any other rune. -/
def hexVal (c : Char) : Option Nat :=
  if 48 ≤ c.toNat ∧ c.toNat ≤ 57 then some (c.toNat - 48)
  else if 97 ≤ c.toNat ∧ c.toNat ≤ 102 then some (c.toNat - 87)
  else if 65 ≤ c.toNat ∧ c.toNat ≤ 70 then some (c.toNat - 55)
  else none

/-- `fmt.Sscanf(s, "%02x", &b)` on a rune sequence: skip leading scan
spaces (newline ⇒ error), then read a maximal run of at most 2 hex
digits (at least one required) and return their value.  Trailing
unconsumed input is ignored, exactly as `Sscanf` ignores it. -/
def sscanf02x (s : List Char) : Option Nat :=
  match skipSpaceNoNL s with
  | none => none
  | some [] => none
  | some (c1 :: rest) =>
    match hexVal c1 with
    | none => none
    | some d1 =>
      match rest with
      | [] => some d1
      | c2 :: _ =>
        match hexVal c2 with
        | some d2 => some (16 * d1 + d2)
        | none => some d1

/-- `parseSampledFlag` from `simpletrace.go`: `false` unless the flags
string is exactly 2 bytes long and `Sscanf "%02x"` succeeds on it, in
which case the result is the least-significant bit of the scanned byte. -/
def parseSampledFlag (flags : List Char) : Bool :=
  if goStrLen flags ≠ 2 then false
  else
    match sscanf02x flags with
    | none => false
    | some v => v % 2 == 1

/-- Go's `strings.Split(s, "-")`: the dash-separated fields of `s`
(an empty string yields the single field `[]`). -/
def splitDash : List Char → List (List Char)
  | [] => [[]]
  | c :: rest =>
    let r := splitDash rest
    if c = '-' then [] :: r
    else
      match r with
      | [] => [[c]]
      | f :: fs => (c :: f) :: fs

/-- The derived per-request trace context of `ServeHTTP`, together with
the rebuilt outgoing `traceparent` header.  `parentSpanID = []` plays the
role of Go's empty string, i.e. "absent". -/
structure TraceResult where
  traceID : List Char
  spanID : List Char
  parentSpanID : List Char
  flags : List Char
  sampled : Bool
  newTraceParent : List Char
  deriving Repr, DecidableEq

/-- `fmt.Sprintf("00-%s-%s-%s", traceID, spanID, flags)` from
`ServeHTTP`. -/
def mkTraceparent (traceID spanID flags : List Char) : List Char :=
  ['0', '0', '-'] ++ traceID ++ ['-'] ++ spanID ++ ['-'] ++ flags

/-- The "generate new trace" branch of `ServeHTTP` (absent or invalid
header): fresh trace and span ids, flags `"01"`, sampled, no parent. -/
def freshTrace (eT eS : Option (List Nat)) : TraceResult :=
  let traceID := generateTraceID eT
  let spanID := generateSpanID eS
  ⟨traceID, spanID, [], ['0', '1'], true, mkTraceparent traceID spanID ['0', '1']⟩

/-- The header-handling core of `ServeHTTP` (`simpletrace.go` lines
58–92): read the `traceparent` value, parse it when non-empty (split on
`-`, require exactly 4 fields with first field `"00"`), adopting trace
id, parent span id and flags and generating a fresh span id on success,
generating everything on failure or absence; then rebuild the outgoing
header.  `eT`/`eS` are the outcomes of the random reads the two
generators would perform. -/
def serveTrace (traceParent : List Char) (eT eS : Option (List Nat)) : TraceResult :=
  if traceParent ≠ [] then
    let parts := splitDash traceParent
    if parts.length = 4 ∧ parts.headD [] = ['0', '0'] then
      let traceID := parts.getD 1 []
      let parentSpanID := parts.getD 2 []
      let flags := parts.getD 3 []
      let sampled := parseSampledFlag flags
      let spanID := generateSpanID eS
      ⟨traceID, spanID, parentSpanID, flags, sampled, mkTraceparent traceID spanID flags⟩
    else freshTrace eT eS
  else freshTrace eT eS

/-- The acceptance condition of the inline parser in `ServeHTTP`:
non-empty header, exactly 4 dash-separated fields, first field `"00"`. -/
def headerAccepted (traceParent : List Char) : Prop :=
  traceParent ≠ [] ∧ (splitDash traceParent).length = 4 ∧
    (splitDash traceParent).headD [] = ['0', '0']

instance (tp : List Char) : Decidable (headerAccepted tp) := by
  unfold headerAccepted
  infer_instance

/-- A structured-log field value (`zap.String` / `zap.Bool`). -/
inductive LogValue where
  | str : List Char → LogValue
  | boolean : Bool → LogValue
  deriving Repr, DecidableEq

/-- The `format := st.Format; if format == "" { format = "otel" }`
defaulting step of `ServeHTTP`. -/
def resolveFormat (f : String) : String :=
  if f = "" then "otel" else f

/-- The `switch format` block of `ServeHTTP` (lines 102–163): the ordered
log fields emitted for the derived trace context under the configured
format name. -/
def buildLogFields (format : String) (projectID : List Char)
    (traceID spanID parentSpanID : List Char) (sampled : Bool) :
    List (String × LogValue) :=
  if format = "stackdriver" ∨ format = "gcp" then
    let traceField :=
      if projectID ≠ [] then
        "projects/".data ++ projectID ++ "/traces/".data ++ traceID
      else traceID
    [("logging.googleapis.com/trace", LogValue.str traceField),
     ("logging.googleapis.com/spanId", LogValue.str spanID),
     ("logging.googleapis.com/trace_sampled", LogValue.boolean sampled)] ++
      (if parentSpanID ≠ [] then [("parent_span_id", LogValue.str parentSpanID)] else [])
  else if format = "tempo" then
    [("traceID", LogValue.str traceID),
     ("spanID", LogValue.str spanID),
     ("traceSampled", LogValue.boolean sampled)] ++
      (if parentSpanID ≠ [] then [("parentSpanID", LogValue.str parentSpanID)] else [])
  else if format = "ecs" then
    [("trace.id", LogValue.str traceID),
     ("span.id", LogValue.str spanID),
     ("trace.sampled", LogValue.boolean sampled)] ++
      (if parentSpanID ≠ [] then [("span.parent_id", LogValue.str parentSpanID)] else [])
  else if format = "datadog" ∨ format = "dd" then
    [("dd.trace_id", LogValue.str traceID),
     ("dd.span_id", LogValue.str spanID),
     ("dd.sampled", LogValue.boolean sampled)] ++
      (if parentSpanID ≠ [] then [("dd.parent_id", LogValue.str parentSpanID)] else [])
  else
    [("trace_id", LogValue.str traceID),
     ("span_id", LogValue.str spanID),
     ("trace_sampled", LogValue.boolean sampled)] ++
      (if parentSpanID ≠ [] then [("parent_span_id", LogValue.str parentSpanID)] else [])

/-- The name each format branch uses for the parent span id field. -/
def parentFieldName (format : String) : String :=
  if format = "stackdriver" ∨ format = "gcp" then "parent_span_id"
  else if format = "tempo" then "parentSpanID"
  else if format = "ecs" then "span.parent_id"
  else if format = "datadog" ∨ format = "dd" then "dd.parent_id"
  else "parent_span_id"

/-- The configuration of the module: `Format` and `ProjectID`. -/
structure SimpleTrace where
  Format : String
  ProjectID : String
  deriving Repr, DecidableEq

/-- The full per-request observable behaviour: the derived trace context
plus the log fields `ServeHTTP` attaches for it. -/
def serveFields (st : SimpleTrace) (traceParent : List Char)
    (eT eS : Option (List Nat)) : List (String × LogValue) :=
  let r := serveTrace traceParent eT eS
  buildLogFields (resolveFormat st.Format) st.ProjectID.data
    r.traceID r.spanID r.parentSpanID r.sampled

/-- `Provision` from `simpletrace.go`: runs the Caddy placeholder
replacer over `ProjectID` (modelled by the abstract `repl`), falls back
to the `GOOGLE_CLOUD_PROJECT` environment value (`envGCP` models the
replacement of that placeholder) for the stackdriver/gcp formats, and
always returns success — no validation of `Format` is performed. -/
def provision (repl : String → String) (envGCP : String)
    (st : SimpleTrace) : Except String SimpleTrace :=
  let pid := repl st.ProjectID
  let pid :=
    if pid = "" ∧ (st.Format = "stackdriver" ∨ st.Format = "gcp") then envGCP
    else pid
  Except.ok ⟨st.Format, pid⟩

/-- `UnmarshalCaddyfile` from `simpletrace.go`, with the dispenser
modelled as the list of subdirective lines (each a token list): `format`
and `project_id` take one argument each (missing argument is `ArgErr`);
any other subdirective name is the error `unknown subdirective`. -/
def unmarshalCaddyfile (lines : List (List String)) (st : SimpleTrace) :
    Except String SimpleTrace :=
  match lines with
  | [] => Except.ok st
  | [] :: rest => unmarshalCaddyfile rest st
  | (tok :: args) :: rest =>
    if tok = "format" then
      match args with
      | [] => Except.error "ArgErr"
      | v :: _ => unmarshalCaddyfile rest ⟨v, st.ProjectID⟩
    else if tok = "project_id" then
      match args with
      | [] => Except.error "ArgErr"
      | v :: _ => unmarshalCaddyfile rest ⟨st.Format, v⟩
    else Except.error ("unknown subdirective: " ++ tok)

/-- Hex-digit test matching Go's `%x` digit set. -/
def isHexDigit (c : Char) : Bool :=
  (hexVal c).isSome

/-- Lower-case hex digits, the alphabet of `hex.EncodeToString`. -/
def isLowerHexDigit (c : Char) : Bool :=
  (48 ≤ c.toNat && c.toNat ≤ 57) || (97 ≤ c.toNat && c.toNat ≤ 102)

/-! ## Lemmas about `splitDash` -/

theorem splitDash_ne_nil (l : List Char) : splitDash l ≠ [] := by
  induction l with
  | nil => simp [splitDash]
  | cons c rest ih =>
    simp only [splitDash]
    by_cases hc : c = '-'
    · simp [hc]
    · simp only [hc, if_false]
      cases h : splitDash rest with
      | nil => simp
      | cons f fs => simp

theorem splitDash_dash (r : List Char) : splitDash ('-' :: r) = [] :: splitDash r := by
  simp [splitDash]

theorem splitDash_cons_of_ne (c : Char) (r : List Char) (hc : c ≠ '-') :
    splitDash (c :: r) = (c :: (splitDash r).headD []) :: (splitDash r).tail := by
  obtain ⟨f, fs, hfs⟩ := List.exists_cons_of_ne_nil (splitDash_ne_nil r)
  simp [splitDash, hc, hfs]

theorem length_splitDash (l : List Char) :
    (splitDash l).length = l.count '-' + 1 := by
  induction l with
  | nil => simp [splitDash]
  | cons c rest ih =>
    by_cases hc : c = '-'
    · subst hc
      simp [splitDash_dash, ih, List.count_cons]
    · rw [splitDash_cons_of_ne c rest hc]
      obtain ⟨f, fs, hfs⟩ := List.exists_cons_of_ne_nil (splitDash_ne_nil rest)
      rw [hfs] at ih ⊢
      simp only [List.length_cons, List.tail_cons, List.count_cons] at *
      have hcc : (c == '-') = false := by simp [hc]
      simp [hcc]
      omega

theorem headD_splitDash (l : List Char) :
    (splitDash l).headD [] = l.takeWhile (fun c => c != '-') := by
  induction l with
  | nil => simp [splitDash]
  | cons c rest ih =>
    by_cases hc : c = '-'
    · subst hc
      simp [splitDash_dash, List.takeWhile_cons]
    · rw [splitDash_cons_of_ne c rest hc]
      simp only [List.headD_cons]
      rw [List.takeWhile_cons]
      have ih2 : (splitDash rest).head?.getD [] =
          List.takeWhile (fun c => c != '-') rest := by
        simpa using ih
      simp [hc, ih2]

theorem splitDash_eq_single (l : List Char) (h : ∀ c ∈ l, c ≠ '-') :
    splitDash l = [l] := by
  induction l with
  | nil => simp [splitDash]
  | cons c rest ih =>
    have hc : c ≠ '-' := h c (List.mem_cons_self c rest)
    rw [splitDash_cons_of_ne c rest hc, ih (fun x hx => h x (List.mem_cons_of_mem c hx))]
    simp

theorem splitDash_append_dash (l r : List Char) (h : ∀ c ∈ l, c ≠ '-') :
    splitDash (l ++ '-' :: r) = l :: splitDash r := by
  induction l with
  | nil => simp [splitDash_dash]
  | cons c rest ih =>
    have hc : c ≠ '-' := h c (List.mem_cons_self c rest)
    rw [List.cons_append, splitDash_cons_of_ne c _ hc,
      ih (fun x hx => h x (List.mem_cons_of_mem c hx))]
    simp

/-! ## Lemmas about hex encoding and the identifier generators -/

theorem length_hexEncode (bs : List Nat) : (hexEncode bs).length = 2 * bs.length := by
  induction bs with
  | nil => simp [hexEncode]
  | cons b rest ih => simp [hexEncode, ih]; omega

theorem isLowerHexDigit_hexDigitChar : ∀ n : Nat, n < 16 →
    isLowerHexDigit (hexDigitChar n) = true := by
  decide

theorem mem_hexEncode_lowerHex (bs : List Nat) (c : Char) (hc : c ∈ hexEncode bs) :
    isLowerHexDigit c = true := by
  induction bs with
  | nil => simp [hexEncode] at hc
  | cons b rest ih =>
    simp only [hexEncode, List.mem_cons] at hc
    rcases hc with h | h | h
    · exact h ▸ isLowerHexDigit_hexDigitChar _ (by omega)
    · exact h ▸ isLowerHexDigit_hexDigitChar _ (by omega)
    · exact ih h

theorem lowerHex_ne_dash (c : Char) (h : isLowerHexDigit c = true) : c ≠ '-' := by
  intro hc
  subst hc
  exact absurd h (by decide)

theorem generateTraceID_lowerHex (e : Option (List Nat)) :
    ∀ c ∈ generateTraceID e, isLowerHexDigit c = true := by
  intro c hc
  cases e with
  | none =>
    simp only [generateTraceID, List.mem_replicate] at hc
    rw [hc.2]
    decide
  | some bs => exact mem_hexEncode_lowerHex bs c hc

theorem generateSpanID_lowerHex (e : Option (List Nat)) :
    ∀ c ∈ generateSpanID e, isLowerHexDigit c = true := by
  intro c hc
  cases e with
  | none =>
    simp only [generateSpanID, List.mem_replicate] at hc
    rw [hc.2]
    decide
  | some bs => exact mem_hexEncode_lowerHex bs c hc

theorem generateTraceID_length (e : Option (List Nat))
    (h : ∀ bs, e = some bs → bs.length = 16) :
    (generateTraceID e).length = 32 := by
  cases e with
  | none => simp [generateTraceID]
  | some bs => simp [generateTraceID, length_hexEncode, h bs rfl]

theorem generateSpanID_length (e : Option (List Nat))
    (h : ∀ bs, e = some bs → bs.length = 8) :
    (generateSpanID e).length = 16 := by
  cases e with
  | none => simp [generateSpanID]
  | some bs => simp [generateSpanID, length_hexEncode, h bs rfl]

/-! ## Lemmas about the `ServeHTTP` branches -/

theorem serveTrace_accepted (tp a b c : List Char) (eT eS : Option (List Nat))
    (h : splitDash tp = [['0', '0'], a, b, c]) :
    serveTrace tp eT eS =
      ⟨a, generateSpanID eS, b, c, parseSampledFlag c,
        mkTraceparent a (generateSpanID eS) c⟩ := by
  have htp : tp ≠ [] := by
    intro hnil
    rw [hnil] at h
    simp [splitDash] at h
  simp [serveTrace, htp, h]

theorem serveTrace_rejected (tp : List Char) (eT eS : Option (List Nat))
    (h : ¬ headerAccepted tp) :
    serveTrace tp eT eS = freshTrace eT eS := by
  by_cases htp : tp = []
  · simp [serveTrace, htp]
  · have hcond : ¬ ((splitDash tp).length = 4 ∧ (splitDash tp).headD [] = ['0', '0']) := by
      intro hc
      exact h ⟨htp, hc.1, hc.2⟩
    simp only [serveTrace, htp, ne_eq, not_false_eq_true, if_true]
    rw [if_neg hcond]

theorem headerAccepted_shape (tp : List Char) (h : headerAccepted tp) :
    ∃ a b c, splitDash tp = [['0', '0'], a, b, c] := by
  obtain ⟨-, hlen, hhead⟩ := h
  match hsd : splitDash tp with
  | [w, x, y, z] =>
    rw [hsd] at hhead
    simp only [List.headD_cons] at hhead
    exact ⟨x, y, z, by rw [hhead]⟩
  | [] => rw [hsd] at hlen; simp at hlen
  | [w] => rw [hsd] at hlen; simp at hlen
  | [w, x] => rw [hsd] at hlen; simp at hlen
  | [w, x, y] => rw [hsd] at hlen; simp at hlen
  | w :: x :: y :: z :: v :: rest => rw [hsd] at hlen; simp at hlen

theorem serveTrace_spanID (tp : List Char) (eT eS : Option (List Nat)) :
    (serveTrace tp eT eS).spanID = generateSpanID eS := by
  by_cases h : headerAccepted tp
  · obtain ⟨a, b, c, hs⟩ := headerAccepted_shape tp h
    rw [serveTrace_accepted tp a b c eT eS hs]
  · rw [serveTrace_rejected tp eT eS h]
    rfl

/-! ## Lemmas about the field mapper -/

theorem buildLogFields_length_no_parent (f : String) (pid t s : List Char) (smp : Bool) :
    (buildLogFields f pid t s [] smp).length = 3 := by
  unfold buildLogFields
  split_ifs <;> simp_all

theorem parent_mem_buildLogFields (f : String) (pid t s p : List Char) (smp : Bool) :
    ((parentFieldName f, LogValue.str p) ∈ buildLogFields f pid t s p smp) ↔ p ≠ [] := by
  constructor
  · intro hmem
    intro hp
    subst hp
    simp only [buildLogFields, parentFieldName] at hmem
    split_ifs at hmem <;> simp_all
  · intro hp
    simp only [buildLogFields, parentFieldName]
    split_ifs <;> simp_all

theorem splitDash_mkTraceparent (t s f : List Char)
    (ht : ∀ c ∈ t, c ≠ '-') (hs : ∀ c ∈ s, c ≠ '-') (hf : ∀ c ∈ f, c ≠ '-') :
    splitDash (mkTraceparent t s f) = [['0', '0'], t, s, f] := by
  unfold mkTraceparent
  have h1 : ['0', '0', '-'] ++ t ++ ['-'] ++ s ++ ['-'] ++ f =
      ['0', '0'] ++ '-' :: (t ++ '-' :: (s ++ '-' :: f)) := by simp
  rw [h1, splitDash_append_dash _ _ (by decide), splitDash_append_dash _ _ ht,
    splitDash_append_dash _ _ hs, splitDash_eq_single _ hf]

theorem headerAccepted_iff (tp : List Char) :
    headerAccepted tp ↔
      tp.count '-' = 3 ∧ tp.takeWhile (fun c => c != '-') = ['0', '0'] := by
  unfold headerAccepted
  rw [length_splitDash, headD_splitDash]
  constructor
  · rintro ⟨htp, hlen, hhead⟩
    exact ⟨by omega, hhead⟩
  · rintro ⟨hcount, hhead⟩
    refine ⟨?_, by omega, hhead⟩
    intro hnil
    rw [hnil] at hcount
    simp at hcount

/-! ## Lemmas about the `Sscanf "%02x"` model -/

theorem hexVal_range (c : Char) (d : Nat) (h : hexVal c = some d) :
    (48 ≤ c.toNat ∧ c.toNat ≤ 57) ∨ (97 ≤ c.toNat ∧ c.toNat ≤ 102) ∨
      (65 ≤ c.toNat ∧ c.toNat ≤ 70) := by
  unfold hexVal at h
  split_ifs at h with h1 h2 h3
  · exact Or.inl h1
  · exact Or.inr (Or.inl h2)
  · exact Or.inr (Or.inr h3)

theorem hexVal_utf8Len (c : Char) (d : Nat) (h : hexVal c = some d) :
    charUtf8Len c = 1 := by
  have hr := hexVal_range c d h
  unfold charUtf8Len
  rcases hr with ⟨h1, h2⟩ | ⟨h1, h2⟩ | ⟨h1, h2⟩ <;> rw [if_pos (by omega)]

theorem skipSpace_hex (c : Char) (d : Nat) (rest : List Char) (h : hexVal c = some d) :
    skipSpaceNoNL (c :: rest) = some (c :: rest) := by
  have hr := hexVal_range c d h
  have h10 : ¬ c = '\n' := by
    intro he
    rw [he] at hr
    revert hr
    decide
  have h13 : ¬ c = '\r' := by
    intro he
    rw [he] at hr
    revert hr
    decide
  have hsp : isGoScanSpace c = false := by
    unfold isGoScanSpace
    simp only [Bool.or_eq_false_iff, Bool.and_eq_false_iff, decide_eq_false_iff_not,
      Nat.not_le, beq_eq_false_iff_ne, ne_eq]
    omega
  unfold skipSpaceNoNL
  rw [if_neg h10, if_neg h13, hsp]
  simp

/-! ## The claims -/

/-- C1: counterexample.  The claim says the freshly generated span id "is
never the incoming span id".  The code draws the span id from
`generateSpanID` without comparing it to the incoming one, and the
generator's documented fallback on a failing random source is the
all-zero 16-hex string: for the accepted header
`00-abcd-0000000000000000-01` with a failing random source, the new span
id equals the incoming span id. -/
theorem claim1_counterexample :
    headerAccepted "00-abcd-0000000000000000-01".data ∧
    (serveTrace "00-abcd-0000000000000000-01".data none none).parentSpanID =
      "0000000000000000".data ∧
    (serveTrace "00-abcd-0000000000000000-01".data none none).spanID =
      "0000000000000000".data := by
  exact ⟨by decide, by decide, by decide⟩

/-- C1 (amended): for every traceparent header that parses successfully,
the Coordinator adopts the parsed trace id and flags unchanged, sets the
parent span id to the parsed second field, takes its span id from the
Identifier Generator (so it differs from the incoming span id whenever
the generator's output does), and emits exactly
`00-{trace_id}-{new_span_id}-{flags}`; for valid inputs
`00-<32hex>-<16hex>-<2hex>` the rebuilt header has the identical fixed
shape and field widths. -/
theorem claim1_amended :
    (∀ (tp a b c : List Char) (eT eS : Option (List Nat)),
        splitDash tp = [['0', '0'], a, b, c] →
        serveTrace tp eT eS =
          ⟨a, generateSpanID eS, b, c, parseSampledFlag c,
            mkTraceparent a (generateSpanID eS) c⟩ ∧
          (generateSpanID eS ≠ b → (serveTrace tp eT eS).spanID ≠ b)) ∧
    (∀ (t p f : List Char) (eT eS : Option (List Nat)),
        t.length = 32 → (∀ c ∈ t, isLowerHexDigit c = true) →
        p.length = 16 → (∀ c ∈ p, isLowerHexDigit c = true) →
        f.length = 2 → (∀ c ∈ f, isLowerHexDigit c = true) →
        (∀ bs, eS = some bs → bs.length = 8) →
        splitDash ((serveTrace (mkTraceparent t p f) eT eS).newTraceParent) =
          [['0', '0'], t, generateSpanID eS, f] ∧
        (generateSpanID eS).length = 16 ∧
        (∀ c ∈ generateSpanID eS, isLowerHexDigit c = true)) := by
  constructor
  · intro tp a b c eT eS hsplit
    have heq := serveTrace_accepted tp a b c eT eS hsplit
    refine ⟨heq, ?_⟩
    intro hne
    rw [heq]
    exact hne
  · intro t p f eT eS ht1 ht2 hp1 hp2 hf1 hf2 hS
    have htd : ∀ c ∈ t, c ≠ '-' := fun c hc => lowerHex_ne_dash c (ht2 c hc)
    have hpd : ∀ c ∈ p, c ≠ '-' := fun c hc => lowerHex_ne_dash c (hp2 c hc)
    have hfd : ∀ c ∈ f, c ≠ '-' := fun c hc => lowerHex_ne_dash c (hf2 c hc)
    have hgd : ∀ c ∈ generateSpanID eS, c ≠ '-' :=
      fun c hc => lowerHex_ne_dash c (generateSpanID_lowerHex eS c hc)
    have hin := splitDash_mkTraceparent t p f htd hpd hfd
    rw [serveTrace_accepted (mkTraceparent t p f) t p f eT eS hin]
    exact ⟨splitDash_mkTraceparent t (generateSpanID eS) f htd hgd hfd,
      generateSpanID_length eS hS, generateSpanID_lowerHex eS⟩

/-- C1 (witness): the amended theorem applied to the concrete accepted
header `00-t1-p1-01` and to the concrete valid-width header built from a
32-hex trace id, 16-hex span id and 2-hex flags, with a failing random
source. -/
theorem claim1_witness :
    (serveTrace "00-t1-p1-01".data none none =
      ⟨"t1".data, generateSpanID none, "p1".data, "01".data,
        parseSampledFlag "01".data,
        mkTraceparent "t1".data (generateSpanID none) "01".data⟩) ∧
    splitDash ((serveTrace
        (mkTraceparent "0123456789abcdef0123456789abcdef".data
          "0123456789abcdef".data "2a".data) none none).newTraceParent) =
      [['0', '0'], "0123456789abcdef0123456789abcdef".data, generateSpanID none,
        "2a".data] :=
  ⟨(claim1_amended.1 "00-t1-p1-01".data "t1".data "p1".data "01".data none none
      (by decide)).1,
    (claim1_amended.2 "0123456789abcdef0123456789abcdef".data
      "0123456789abcdef".data "2a".data none none (by decide) (by decide)
      (by decide) (by decide) (by decide) (by decide)
      (fun bs h => by cases h)).1⟩

/-- C2: for every request whose traceparent header is absent (empty),
has a field count other than 4, or a first field other than `"00"`, the
Coordinator produces a freshly generated 32-hex trace id, a freshly
generated 16-hex span id, flags `"01"`, `sampled = true`, and emits no
parent span id field (the field list has exactly the three base
fields in every vocabulary). -/
theorem claim2 (tp : List Char) (eT eS : Option (List Nat))
    (hrej : ¬ headerAccepted tp)
    (hT : ∀ bs, eT = some bs → bs.length = 16)
    (hS : ∀ bs, eS = some bs → bs.length = 8) :
    (serveTrace tp eT eS).traceID = generateTraceID eT ∧
    (serveTrace tp eT eS).traceID.length = 32 ∧
    (∀ c ∈ (serveTrace tp eT eS).traceID, isLowerHexDigit c = true) ∧
    (serveTrace tp eT eS).spanID = generateSpanID eS ∧
    (serveTrace tp eT eS).spanID.length = 16 ∧
    (∀ c ∈ (serveTrace tp eT eS).spanID, isLowerHexDigit c = true) ∧
    (serveTrace tp eT eS).flags = ['0', '1'] ∧
    (serveTrace tp eT eS).sampled = true ∧
    (serveTrace tp eT eS).parentSpanID = [] ∧
    (∀ (format : String) (pid : List Char),
        (buildLogFields format pid (serveTrace tp eT eS).traceID
          (serveTrace tp eT eS).spanID (serveTrace tp eT eS).parentSpanID
          (serveTrace tp eT eS).sampled).length = 3) := by
  rw [serveTrace_rejected tp eT eS hrej]
  refine ⟨rfl, generateTraceID_length eT hT, generateTraceID_lowerHex eT, rfl,
    generateSpanID_length eS hS, generateSpanID_lowerHex eS, rfl, rfl, rfl, ?_⟩
  intro format pid
  exact buildLogFields_length_no_parent format pid _ _ _

/-- C2 (witness): the theorem applied to the malformed 3-field header
`00-abc-def` with both random reads failing. -/
theorem claim2_witness :
    ¬ headerAccepted "00-abc-def".data ∧
    (serveTrace "00-abc-def".data none none).traceID.length = 32 ∧
    (serveTrace "00-abc-def".data none none).flags = ['0', '1'] ∧
    (serveTrace "00-abc-def".data none none).sampled = true ∧
    (serveTrace "00-abc-def".data none none).parentSpanID = [] :=
  ⟨by decide,
    (claim2 "00-abc-def".data none none (by decide) (fun bs h => by cases h)
      (fun bs h => by cases h)).2.1,
    (claim2 "00-abc-def".data none none (by decide) (fun bs h => by cases h)
      (fun bs h => by cases h)).2.2.2.2.2.2.1,
    (claim2 "00-abc-def".data none none (by decide) (fun bs h => by cases h)
      (fun bs h => by cases h)).2.2.2.2.2.2.2.1,
    (claim2 "00-abc-def".data none none (by decide) (fun bs h => by cases h)
      (fun bs h => by cases h)).2.2.2.2.2.2.2.2.1⟩

/-- C3: header parsing accepts an input iff splitting on `-` yields
exactly 4 fields (equivalently, the header holds exactly 3 dashes) whose
first is the literal `00` (equivalently, the text before the first dash
is `00`); no length or character-class validation is applied to the
remaining fields, so a 4-field header with a non-hex trace id such as
`00-zz!z-q-xy` is accepted and its trace id adopted; every rejected
header leads to full regeneration. -/
theorem claim3 :
    (∀ tp : List Char,
        headerAccepted tp ↔
          tp.count '-' = 3 ∧ tp.takeWhile (fun c => c != '-') = ['0', '0']) ∧
    headerAccepted "00-zz!z-q-xy".data ∧
    (serveTrace "00-zz!z-q-xy".data none none).traceID = "zz!z".data ∧
    (∀ (tp : List Char) (eT eS : Option (List Nat)),
        ¬ headerAccepted tp → serveTrace tp eT eS = freshTrace eT eS) :=
  ⟨headerAccepted_iff, by decide, by decide, serveTrace_rejected⟩

/-- C3 (witness): the characterization and the rejection branch of the
theorem, applied at concrete inputs. -/
theorem claim3_witness :
    headerAccepted "00-a-b-c".data ∧
    serveTrace "not-a-traceparent".data none none = freshTrace none none :=
  ⟨(claim3.1 "00-a-b-c".data).mpr (by decide),
    claim3.2.2.2 "not-a-traceparent".data none none (by decide)⟩

/-- C4: counterexample.  The claim says `parseSampledFlag` returns false
for every input that is not valid hex.  `"1z"` is 2 bytes long and not
valid hex (`z` is no hex digit), yet `fmt.Sscanf("%02x")` reads the
maximal digit run `"1"`, ignores the trailing `z`, and succeeds with
value 1, so `parseSampledFlag "1z" = true`. -/
theorem claim4_counterexample :
    parseSampledFlag "1z".data = true ∧ isHexDigit 'z' = false ∧
      goStrLen "1z".data = 2 := by
  exact ⟨by decide, by decide, by decide⟩

/-- C4 (amended): `parseSampledFlag` returns false for every input whose
byte length is not exactly 2 and for every input on which the
`Sscanf "%02x"` scan fails; when both characters are hex digits it
returns the least-significant bit of the decoded byte; the spec's five
examples hold (`"01"` true, `"00"` false, `"ff"` true, `"0"` false,
`"zz"` false).  (A 2-character input whose first character is a hex digit
scans successfully even if the second is not — see the counterexample.) -/
theorem claim4_amended :
    (∀ s : List Char, goStrLen s ≠ 2 → parseSampledFlag s = false) ∧
    (∀ s : List Char, sscanf02x s = none → parseSampledFlag s = false) ∧
    (∀ (c1 c2 : Char) (d1 d2 : Nat), hexVal c1 = some d1 → hexVal c2 = some d2 →
        parseSampledFlag [c1, c2] = ((16 * d1 + d2) % 2 == 1)) ∧
    parseSampledFlag "01".data = true ∧ parseSampledFlag "00".data = false ∧
    parseSampledFlag "ff".data = true ∧ parseSampledFlag "0".data = false ∧
    parseSampledFlag "zz".data = false := by
  refine ⟨?_, ?_, ?_, by decide, by decide, by decide, by decide, by decide⟩
  · intro s h
    simp [parseSampledFlag, h]
  · intro s h
    unfold parseSampledFlag
    rw [h]
    simp
  · intro c1 c2 d1 d2 h1 h2
    have hlen : goStrLen [c1, c2] = 2 := by
      simp [goStrLen, hexVal_utf8Len c1 d1 h1, hexVal_utf8Len c2 d2 h2]
    have hscan : sscanf02x [c1, c2] = some (16 * d1 + d2) := by
      unfold sscanf02x
      rw [skipSpace_hex c1 d1 [c2] h1]
      simp [h1, h2]
    unfold parseSampledFlag
    rw [hscan, if_neg (by omega)]

/-- C4 (witness): the amended theorem applied to the concrete inputs
`"abc"` (wrong length), `"q1"` (scan fails at `q`) and the hex pair
`"2b"`. -/
theorem claim4_witness :
    goStrLen "abc".data ≠ 2 ∧ parseSampledFlag "abc".data = false ∧
    sscanf02x "q1".data = none ∧ parseSampledFlag "q1".data = false ∧
    parseSampledFlag "2b".data = ((16 * 2 + 11) % 2 == 1) :=
  ⟨by decide, claim4_amended.1 "abc".data (by decide),
    by decide, claim4_amended.2.1 "q1".data (by decide),
    claim4_amended.2.2.1 '2' 'b' 2 11 (by decide) (by decide)⟩

/-- C5: counterexample.  The claim says an unrecognized vocabulary
(format) name is signaled as a configuration/setup error at provisioning
time.  In the code the Caddyfile parser accepts any `format` argument,
`Provision` never returns an error, and the unknown name `"bogus"` is
only resolved at request time, falling back to the default field names —
no error is ever raised for it. -/
theorem claim5_counterexample :
    unmarshalCaddyfile [["format", "bogus"]] ⟨"", ""⟩ = Except.ok ⟨"bogus", ""⟩ ∧
    provision id "" ⟨"bogus", ""⟩ = Except.ok ⟨"bogus", ""⟩ ∧
    serveFields ⟨"bogus", ""⟩ [] none none =
      [("trace_id", LogValue.str (List.replicate 32 '0')),
       ("span_id", LogValue.str (List.replicate 16 '0')),
       ("trace_sampled", LogValue.boolean true)] := by
  exact ⟨rfl, rfl, by decide⟩

/-- C5 (amended): an unknown configuration key (subdirective) is
signaled as an error when the Caddyfile is parsed; an unrecognized
vocabulary name, however, is accepted by the Caddyfile parser and by
`Provision` (which always succeeds) and is resolved only at request
time, by falling back to the default vocabulary. -/
theorem claim5_amended :
    (∀ (k : String) (args : List String) (rest : List (List String))
        (st : SimpleTrace), k ≠ "format" → k ≠ "project_id" →
        unmarshalCaddyfile ((k :: args) :: rest) st =
          Except.error ("unknown subdirective: " ++ k)) ∧
    (∀ (repl : String → String) (envGCP : String) (st : SimpleTrace),
        ∃ st2, provision repl envGCP st = Except.ok st2) ∧
    (∀ (v : String) (st : SimpleTrace),
        unmarshalCaddyfile [["format", v]] st = Except.ok ⟨v, st.ProjectID⟩) := by
  refine ⟨?_, ?_, ?_⟩
  · intro k args rest st h1 h2
    simp [unmarshalCaddyfile, h1, h2]
  · intro repl envGCP st
    exact ⟨_, rfl⟩
  · intro v st
    simp [unmarshalCaddyfile]

/-- C5 (witness): the amended theorem applied to the unknown key
`"frmt"`, an arbitrary provisioning call, and the unknown format value
`"zipkin"`. -/
theorem claim5_witness :
    unmarshalCaddyfile [["frmt", "otel"]] ⟨"", ""⟩ =
      Except.error ("unknown subdirective: " ++ "frmt") ∧
    (∃ st2, provision id "proj" ⟨"gcp", ""⟩ = Except.ok st2) ∧
    unmarshalCaddyfile [["format", "zipkin"]] ⟨"", "pp"⟩ =
      Except.ok ⟨"zipkin", "pp"⟩ :=
  ⟨claim5_amended.1 "frmt" ["otel"] [] ⟨"", ""⟩ (by decide) (by decide),
    claim5_amended.2.1 id "proj" ⟨"gcp", ""⟩,
    claim5_amended.2.2 "zipkin" ⟨"", "pp"⟩⟩

/-- C6: every unknown or unconfigured (empty) vocabulary selection makes
the Field Mapper emit the generic (default) vocabulary's field names —
`trace_id`, `span_id`, `trace_sampled` and, when a parent span id is
present, `parent_span_id` — and the mapper has no error outcome. -/
theorem claim6 (format : String) (pid t s p : List Char) (smp : Bool)
    (h1 : format ≠ "stackdriver") (h2 : format ≠ "gcp") (h3 : format ≠ "tempo")
    (h4 : format ≠ "ecs") (h5 : format ≠ "datadog") (h6 : format ≠ "dd") :
    buildLogFields (resolveFormat format) pid t s p smp =
      [("trace_id", LogValue.str t), ("span_id", LogValue.str s),
       ("trace_sampled", LogValue.boolean smp)] ++
        (if p ≠ [] then [("parent_span_id", LogValue.str p)] else []) := by
  by_cases h0 : format = ""
  · simp [resolveFormat, h0, buildLogFields]
  · simp [resolveFormat, h0, buildLogFields, h1, h2, h3, h4, h5, h6]

/-- C6 (witness): the theorem applied to the unknown name `"zipkin"` and
to the empty selection. -/
theorem claim6_witness :
    buildLogFields (resolveFormat "zipkin") [] "t".data "s".data "p".data true =
      [("trace_id", LogValue.str "t".data), ("span_id", LogValue.str "s".data),
       ("trace_sampled", LogValue.boolean true)] ++
        (if ("p".data : List Char) ≠ [] then
          [("parent_span_id", LogValue.str "p".data)] else []) ∧
    buildLogFields (resolveFormat "") [] "t".data "s".data [] false =
      [("trace_id", LogValue.str "t".data), ("span_id", LogValue.str "s".data),
       ("trace_sampled", LogValue.boolean false)] ++
        (if ([] : List Char) ≠ [] then
          [("parent_span_id", LogValue.str ([] : List Char))] else []) :=
  ⟨claim6 "zipkin" [] "t".data "s".data "p".data true (by decide) (by decide)
      (by decide) (by decide) (by decide) (by decide),
    claim6 "" [] "t".data "s".data [] false (by decide) (by decide) (by decide)
      (by decide) (by decide) (by decide)⟩

/-- C7: under the stackdriver/gcp vocabulary the emitted trace field
value is `projects/{project_id}/traces/{trace_id}` when a non-empty
project id is configured and the raw trace id when it is empty; under
every other vocabulary the first (trace) field carries the raw trace id
unchanged. -/
theorem claim7 :
    (∀ (format : String) (pid t s p : List Char) (smp : Bool),
        (format = "stackdriver" ∨ format = "gcp") →
        (buildLogFields format pid t s p smp).headD ("", LogValue.boolean false) =
          ("logging.googleapis.com/trace",
            LogValue.str (if pid ≠ [] then
              "projects/".data ++ pid ++ "/traces/".data ++ t else t))) ∧
    (∀ (format : String) (pid t s p : List Char) (smp : Bool),
        format ≠ "stackdriver" → format ≠ "gcp" →
        ((buildLogFields format pid t s p smp).headD
            ("", LogValue.boolean false)).2 = LogValue.str t) := by
  constructor
  · intro format pid t s p smp h
    simp only [buildLogFields, if_pos h]
    by_cases hp : pid = [] <;> simp [hp]
  · intro format pid t s p smp h1 h2
    have h0 : ¬ (format = "stackdriver" ∨ format = "gcp") := by
      rintro (h | h) <;> [exact h1 h; exact h2 h]
    simp only [buildLogFields, if_neg h0]
    by_cases h3 : format = "tempo"
    · simp [h3]
    · by_cases h4 : format = "ecs"
      · simp [h3, h4]
      · by_cases h5 : format = "datadog" ∨ format = "dd"
        · simp [h3, h4, h5]
        · simp [h3, h4, h5]

/-- C7 (witness): the theorem applied with format `"gcp"` and project id
`"my-project"`, with format `"stackdriver"` and an empty project id, and
with the non-stackdriver format `"tempo"`. -/
theorem claim7_witness :
    (buildLogFields "gcp" "my-project".data "tid".data "sid".data [] true).headD
        ("", LogValue.boolean false) =
      ("logging.googleapis.com/trace",
        LogValue.str (if ("my-project".data : List Char) ≠ [] then
          "projects/".data ++ "my-project".data ++ "/traces/".data ++ "tid".data
          else "tid".data)) ∧
    (buildLogFields "stackdriver" [] "tid".data "sid".data [] true).headD
        ("", LogValue.boolean false) =
      ("logging.googleapis.com/trace",
        LogValue.str (if ([] : List Char) ≠ [] then
          "projects/".data ++ [] ++ "/traces/".data ++ "tid".data
          else "tid".data)) ∧
    ((buildLogFields "tempo" "my-project".data "tid".data "sid".data [] true).headD
        ("", LogValue.boolean false)).2 = LogValue.str "tid".data :=
  ⟨claim7.1 "gcp" "my-project".data "tid".data "sid".data [] true (Or.inr rfl),
    claim7.1 "stackdriver" [] "tid".data "sid".data [] true (Or.inl rfl),
    claim7.2 "tempo" "my-project".data "tid".data "sid".data [] true
      (by decide) (by decide)⟩

/-- C8: when the random source fails, `generateTraceID` returns the
all-zero 32-hex string and `generateSpanID` the all-zero 16-hex string;
the failure is absorbed — `serveTrace` still produces a complete result
whose span id is the zero string (and, on the regeneration path, whose
trace id is the zero string), rather than propagating an error. -/
theorem claim8 :
    generateTraceID none = List.replicate 32 '0' ∧
    generateSpanID none = List.replicate 16 '0' ∧
    (∀ (tp : List Char) (eT : Option (List Nat)),
        (serveTrace tp eT none).spanID = List.replicate 16 '0') ∧
    (∀ tp : List Char, ¬ headerAccepted tp →
        (serveTrace tp none none).traceID = List.replicate 32 '0') := by
  refine ⟨rfl, rfl, ?_, ?_⟩
  · intro tp eT
    rw [serveTrace_spanID]
    rfl
  · intro tp h
    rw [serveTrace_rejected tp none none h]
    rfl

/-- C8 (witness): the regeneration conjunct of the theorem applied to
the concrete malformed header `"bad"`. -/
theorem claim8_witness :
    ¬ headerAccepted "bad".data ∧
    (serveTrace "bad".data none none).traceID = List.replicate 32 '0' :=
  ⟨by decide, claim8.2.2.2 "bad".data (by decide)⟩

/-- C9: counterexample.  The claim says sampled is reported as false for
every accepted header whose flags field is not a well-formed 2-char hex
byte.  For the accepted header `00-a-b-1z` the flags field `1z` is not
well-formed hex, yet `Sscanf "%02x"` reads the digit `1` and ignores the
`z`, so sampled is reported as true. -/
theorem claim9_counterexample :
    headerAccepted "00-a-b-1z".data ∧
    (serveTrace "00-a-b-1z".data none none).flags = "1z".data ∧
    "1z".data.all isHexDigit = false ∧
    (serveTrace "00-a-b-1z".data none none).sampled = true := by
  exact ⟨by decide, by decide, by decide, by decide⟩

/-- C9 (amended): for every accepted 4-field header the flags string is
re-emitted verbatim in the outgoing header (whatever its length or
characters — the Coordinator never normalizes or replaces it) and
sampled is exactly `parseSampledFlag flags`; that is false for flags
whose byte length is not 2, such as `abc` in `00-a-b-abc` (whose
re-emission then violates the 2-hex-char wire width), but can be true
for malformed 2-character flags whose first character is an odd hex
digit. -/
theorem claim9_amended :
    (∀ (tp a b c : List Char) (eT eS : Option (List Nat)),
        splitDash tp = [['0', '0'], a, b, c] →
        (serveTrace tp eT eS).flags = c ∧
        (serveTrace tp eT eS).newTraceParent =
          ['0', '0', '-'] ++ a ++ ['-'] ++ generateSpanID eS ++ ['-'] ++ c ∧
        (serveTrace tp eT eS).sampled = parseSampledFlag c) ∧
    (serveTrace "00-a-b-abc".data none none).sampled = false := by
  constructor
  · intro tp a b c eT eS h
    rw [serveTrace_accepted tp a b c eT eS h]
    exact ⟨rfl, rfl, rfl⟩
  · decide

/-- C9 (witness): the amended theorem applied to the concrete accepted
header `00-t-p-ab` with its 3-character flags neighbour `00-a-b-abc`
covered by the closed conjunct. -/
theorem claim9_witness :
    splitDash "00-t-p-ab".data = [['0', '0'], "t".data, "p".data, "ab".data] ∧
    (serveTrace "00-t-p-ab".data none none).flags = "ab".data ∧
    (serveTrace "00-t-p-ab".data none none).sampled = parseSampledFlag "ab".data :=
  ⟨by decide,
    (claim9_amended.1 "00-t-p-ab".data "t".data "p".data "ab".data none none
      (by decide)).1,
    (claim9_amended.1 "00-t-p-ab".data "t".data "p".data "ab".data none none
      (by decide)).2.2⟩

/-- C10: in every vocabulary the parent span id field is emitted exactly
when the parent span id string is non-empty; in particular the
successfully parsed header `00-abc--01`, whose third dash-separated
field is empty, yields log fields without a parent span id entry. -/
theorem claim10 :
    (∀ (format : String) (pid t s p : List Char) (smp : Bool),
        ((parentFieldName format, LogValue.str p) ∈
          buildLogFields format pid t s p smp) ↔ p ≠ []) ∧
    headerAccepted "00-abc--01".data ∧
    serveFields ⟨"", ""⟩ "00-abc--01".data none none =
      [("trace_id", LogValue.str "abc".data),
       ("span_id", LogValue.str (List.replicate 16 '0')),
       ("trace_sampled", LogValue.boolean true)] :=
  ⟨parent_mem_buildLogFields, by decide, by decide⟩

/-- C10 (witness): the membership characterization of the theorem
applied to a present parent under the ecs vocabulary and to an absent
parent under the dd vocabulary. -/
theorem claim10_witness :
    ((parentFieldName "ecs", LogValue.str "pp".data) ∈
        buildLogFields "ecs" [] "t".data "s".data "pp".data false) ∧
    ¬ ((parentFieldName "dd", LogValue.str ([] : List Char)) ∈
        buildLogFields "dd" [] "t".data "s".data [] false) :=
  ⟨(claim10.1 "ecs" [] "t".data "s".data "pp".data false).mpr (by decide),
    fun h => (claim10.1 "dd" [] "t".data "s".data [] false).mp h rfl⟩

end SimpleTraceSpec
